import Mathlib

/-!
Shallow embedding of the mNAV valuation engine
(`src/src/mnav_calculator.py`, class `mNAVCalculator`).

Python floats are modelled as rationals (`ℚ`), `None` as `Option.none`,
`raise` as `Except.error`.  A balance-sheet snapshot (one row of the
pandas DataFrame) is an association list from index labels to optional
values, where `Option.none` in the value position models a NaN/null cell
(`pd.notna` false).
-/

namespace MNav

/-- Errors raised by the engine: `ValueError` at construction
(`InvalidInputError` in the spec) and `ValueError` in premium/discount
math (`InvalidValuationError` in the spec). -/
inductive CalcError
  | invalidInput
  | invalidValuation
deriving DecidableEq, Repr

/-- One balance-sheet row: index labels with optional (possibly NaN) values. -/
abbrev Snapshot := List (String × Option ℚ)

/-- Python `str.lower()` (ASCII, as used on field names). -/
def pyLower (s : String) : String := String.mk (s.data.map Char.toLower)

/-- Python `str.upper()` (ASCII, as used on field names). -/
def pyUpper (s : String) : String := String.mk (s.data.map Char.toUpper)

/-- Python `key.replace('_', '')`. -/
def stripUnderscores (s : String) : String := String.mk (s.data.filter (fun c => c ≠ '_'))

/-- Python `key.replace('_', ' ')`. -/
def underscoresToSpaces (s : String) : String :=
  String.mk (s.data.map (fun c => if c = '_' then ' ' else c))

/-- Character-level worker for Python `str.title()`: a letter is uppercased
when the previous character is not a letter, lowercased otherwise. -/
def pyTitleAux : Bool → List Char → List Char
  | _, [] => []
  | prevAlpha, c :: cs =>
    if c.isAlpha then
      (if prevAlpha then c.toLower else c.toUpper) :: pyTitleAux true cs
    else
      c :: pyTitleAux false cs

/-- Python `str.title()` (ASCII, as used on field names). -/
def pyTitle (s : String) : String := String.mk (pyTitleAux false s.data)

/-- The `key_variations` list of `_get_value_safe`, in source order:
identity, `lower()`, `upper()`, `replace('_','')`, `replace('_',' ').title()`. -/
def key_variations (key : String) : List String :=
  [key, pyLower key, pyUpper key, stripUnderscores key, pyTitle (underscoresToSpaces key)]

/-- The `for k in key_variations` loop body of `_get_value_safe`: the first
variant present in the snapshot index decides the result; a present key with
a NaN value returns the default immediately. -/
def getValueAux (bs : Snapshot) (dflt : ℚ) : List String → ℚ
  | [] => dflt
  | k :: ks =>
    match bs.lookup k with
    | some (some x) => x
    | some none => dflt
    | none => getValueAux bs dflt ks

/-- Embeds `_get_value_safe(key, default)` of `mNAVCalculator`. -/
def get_value_safe (bs : Snapshot) (key : String) (dflt : ℚ) : ℚ :=
  getValueAux bs dflt (key_variations key)

/-- The engine's state after `__init__`: the latest (first) balance-sheet
row and the share count. -/
structure MNAVCalculator where
  latest_bs : Snapshot
  shares_outstanding : ℚ
deriving DecidableEq, Repr

/-- Embeds `mNAVCalculator.__init__(balance_sheet, shares_outstanding)`:
rejects an empty DataFrame, then a non-positive share count, then stores
the first row (`_get_latest_balance_sheet`, `.iloc[0]`). -/
def mkCalculator (balance_sheet : List Snapshot) (shares_outstanding : ℚ) :
    Except CalcError MNAVCalculator :=
  if balance_sheet.isEmpty then Except.error CalcError.invalidInput
  else if shares_outstanding ≤ 0 then Except.error CalcError.invalidInput
  else Except.ok { latest_bs := balance_sheet.headD [], shares_outstanding }

/-- Python truthiness of an `Optional[float]`: `None`, `0` and `0.0` are
falsy, every other number is truthy. -/
def truthy : Option ℚ → Bool
  | none => false
  | some x => x != 0

/-- Python `a or b` on floats: `a` when truthy (non-zero), else `b`. -/
def pyOr (a b : ℚ) : ℚ := if a = 0 then b else a

/-- Result dictionary of `calculate_basic_nav`. -/
structure BasicNavResult where
  nav : ℚ
  nav_per_share : ℚ
  total_assets : ℚ
  total_liabilities : ℚ
  book_value_equity : ℚ
  shares_outstanding : ℚ
deriving DecidableEq, Repr

/-- Embeds `calculate_basic_nav()`: resolves assets and liabilities, picks equity by
the Python `or`-chain over three equity spellings with `assets − liabilities`
as final fallback, and divides NAV by the share count. -/
def calculate_basic_nav (c : MNAVCalculator) : BasicNavResult :=
  let total_assets := get_value_safe c.latest_bs ("total_assets") 0
  let total_liabilities := get_value_safe c.latest_bs ("total_liabilities") 0
  let equity :=
    pyOr (get_value_safe c.latest_bs ("total_equity") 0)
      (pyOr (get_value_safe c.latest_bs ("shareholders_equity") 0)
        (pyOr (get_value_safe c.latest_bs ("stockholders_equity") 0)
          (total_assets - total_liabilities)))
  let nav := total_assets - total_liabilities
  { nav
    nav_per_share := nav / c.shares_outstanding
    total_assets
    total_liabilities
    book_value_equity := equity
    shares_outstanding := c.shares_outstanding }

/-- Result dictionary of `calculate_mnav_with_fair_value`. -/
structure MnavResult where
  mnav : ℚ
  mnav_per_share : ℚ
  adjusted_assets : ℚ
  total_assets : ℚ
  total_liabilities : ℚ
  minority_interest : ℚ
  property_fair_value : ℚ
  property_book_value : ℚ
  revaluation_gain : ℚ
  deferred_tax_rate : ℚ
  deferred_tax_adjustment : ℚ
  shares_outstanding : ℚ
deriving DecidableEq, Repr

/-- Embeds `calculate_mnav_with_fair_value(property_fair_value, property_book_value,
deferred_tax_rate, minority_interest)`.  The guard
`if property_fair_value and property_book_value` is Python truthiness: the
revaluation branch is taken only when both optionals are non-`None` and
non-zero. -/
def calculate_mnav_with_fair_value (c : MNAVCalculator)
    (property_fair_value property_book_value : Option ℚ)
    (deferred_tax_rate : ℚ) (minority_interest_arg : Option ℚ) : MnavResult :=
  let total_assets := get_value_safe c.latest_bs ("total_assets") 0
  let total_liabilities := get_value_safe c.latest_bs ("total_liabilities") 0
  let minority_interest :=
    match minority_interest_arg with
    | none => get_value_safe c.latest_bs ("minority_interest") 0
    | some m => m
  let revaluation_gain :=
    if truthy property_fair_value && truthy property_book_value then
      property_fair_value.getD 0 - property_book_value.getD 0
    else 0
  let adjusted_assets :=
    if truthy property_fair_value && truthy property_book_value then
      total_assets + (property_fair_value.getD 0 - property_book_value.getD 0)
    else total_assets
  let deferred_tax_adjustment := revaluation_gain * deferred_tax_rate
  let mnav := adjusted_assets - total_liabilities - minority_interest - deferred_tax_adjustment
  { mnav
    mnav_per_share := mnav / c.shares_outstanding
    adjusted_assets
    total_assets
    total_liabilities
    minority_interest
    property_fair_value :=
      (if truthy property_fair_value then property_fair_value.getD 0
       else if truthy property_book_value then property_book_value.getD 0 else 0)
    property_book_value :=
      (if truthy property_book_value then property_book_value.getD 0 else 0)
    revaluation_gain
    deferred_tax_rate
    deferred_tax_adjustment
    shares_outstanding := c.shares_outstanding }

/-- The three-way premium/discount classification shared by the result
dictionaries (`status` / `valuation_status` strings in the source). -/
inductive Classification
  | premium
  | discount
  | fair
deriving DecidableEq, Repr

/-- The `if/elif/else` classification of `calculate_premium_discount`
(`status`: overvalued / undervalued / fairly_valued). -/
def interpretStatus (pct : ℚ) : Classification :=
  if pct > 5 then Classification.premium
  else if pct < -5 then Classification.discount
  else Classification.fair

/-- The lambda applied per row in `calculate_historical_mnav`
(`premium` / `discount` / `fair`). -/
def rowStatus (pct : ℚ) : Classification :=
  if pct > 5 then Classification.premium
  else if pct < -5 then Classification.discount
  else Classification.fair

/-- Result dictionary of `calculate_premium_discount`. -/
structure PremiumDiscountResult where
  current_price : ℚ
  mnav_per_share : ℚ
  p_mnav_ratio : ℚ
  premium_discount_pct : ℚ
  premium_discount_amount : ℚ
  status : Classification
deriving DecidableEq, Repr

/-- Embeds `calculate_premium_discount(current_price, mnav_per_share)`: raises
`ValueError` when `mnav_per_share <= 0`, otherwise returns ratio,
percentage, absolute delta and classification. -/
def calculate_premium_discount (current_price mnav_per_share : ℚ) :
    Except CalcError PremiumDiscountResult :=
  if mnav_per_share ≤ 0 then Except.error CalcError.invalidValuation
  else
    let p_mnav_ratio := current_price / mnav_per_share
    let premium_discount_pct := (current_price - mnav_per_share) / mnav_per_share * 100
    let premium_discount_amount := current_price - mnav_per_share
    Except.ok
      { current_price
        mnav_per_share
        p_mnav_ratio
        premium_discount_pct
        premium_discount_amount
        status := interpretStatus premium_discount_pct }

/-- One output row of `calculate_historical_mnav`: the original price column
plus the five added columns. -/
structure HistRow where
  price : ℚ
  mnav_per_share : ℚ
  p_mnav_ratio : ℚ
  premium_discount_pct : ℚ
  premium_discount_amount : ℚ
  valuation_status : Classification
deriving DecidableEq, Repr

/-- Embeds `calculate_historical_mnav(historical_prices, mnav_per_share)`: the
pandas column arithmetic acts elementwise, so it is modelled as a map over
the price column.  No validation of `mnav_per_share` is performed. -/
def calculate_historical_mnav (prices : List ℚ) (mnav_per_share : ℚ) : List HistRow :=
  prices.map (fun p =>
    { price := p
      mnav_per_share
      p_mnav_ratio := p / mnav_per_share
      premium_discount_pct := (p - mnav_per_share) / mnav_per_share * 100
      premium_discount_amount := p - mnav_per_share
      valuation_status := rowStatus ((p - mnav_per_share) / mnav_per_share * 100) })

/-- One row of the `compare_multiple_valuations` comparison table. -/
structure ScenarioRow where
  scenario : String
  mnav_per_share : ℚ
  current_price : ℚ
  p_mnav_ratio : ℚ
  premium_discount_pct : ℚ
  status : Classification
deriving DecidableEq, Repr

/-- The row assembled for one scenario from a `calculate_premium_discount`
result. -/
def mkScenarioRow (price : ℚ) (nv : String × ℚ) (pd : PremiumDiscountResult) : ScenarioRow :=
  { scenario := nv.1
    mnav_per_share := nv.2
    current_price := price
    p_mnav_ratio := pd.p_mnav_ratio
    premium_discount_pct := pd.premium_discount_pct
    status := pd.status }

/-- The `for scenario_name, mnav_value in scenarios.items()` loop: each
iteration calls `calculate_premium_discount` and appends one row; an
exception aborts the whole call. -/
def compareAux (price : ℚ) : List (String × ℚ) → Except CalcError (List ScenarioRow)
  | [] => Except.ok []
  | nv :: rest =>
    match calculate_premium_discount price nv.2 with
    | Except.error e => Except.error e
    | Except.ok pd =>
      match compareAux price rest with
      | Except.error e => Except.error e
      | Except.ok rows => Except.ok (mkScenarioRow price nv pd :: rows)

/-- Embeds `compare_multiple_valuations(current_price, scenarios)`; the insertion
order of the Python dict is the list order. -/
def compare_multiple_valuations (price : ℚ) (scenarios : List (String × ℚ)) :
    Except CalcError (List ScenarioRow) :=
  compareAux price scenarios

/-- Declarative reading of a Python `or`-chain over numbers: the first
non-zero element wins, with a final fallback.  Used to state the equity
fallback order of `calculate_basic_nav`. -/
def firstNonZero (fallback : ℚ) : List ℚ → ℚ
  | [] => fallback
  | x :: xs => if x = 0 then firstNonZero fallback xs else x

/-- The sample balance sheet from the module's `__main__` block, scaled to
small numbers for witnesses. -/
def sampleBS : Snapshot :=
  [("total_assets", some 1000), ("total_liabilities", some 600), ("minority_interest", some 50)]

/-- A concrete engine over `sampleBS` with 10 shares outstanding. -/
def sampleCalc : MNAVCalculator := { latest_bs := sampleBS, shares_outstanding := 10 }

end MNav

namespace MNav

theorem interpretStatus_eq_premium (pct : ℚ) :
    interpretStatus pct = Classification.premium ↔ pct > 5 := by
  constructor
  · intro h
    unfold interpretStatus at h
    split_ifs at h with h1 h2
    exact h1
  · intro h
    unfold interpretStatus
    rw [if_pos h]

theorem interpretStatus_eq_discount (pct : ℚ) :
    interpretStatus pct = Classification.discount ↔ pct < -5 := by
  constructor
  · intro h
    unfold interpretStatus at h
    split_ifs at h with h1 h2
    exact h2
  · intro h
    unfold interpretStatus
    rw [if_neg (by linarith), if_pos h]

theorem interpretStatus_boundary_hi : interpretStatus 5 = Classification.fair := by
  unfold interpretStatus
  norm_num

theorem interpretStatus_boundary_lo : interpretStatus (-5) = Classification.fair := by
  unfold interpretStatus
  norm_num

theorem calculate_premium_discount_ok (price rv : ℚ) (h : 0 < rv) :
    calculate_premium_discount price rv
      = Except.ok
          { current_price := price
            mnav_per_share := rv
            p_mnav_ratio := price / rv
            premium_discount_pct := (price - rv) / rv * 100
            premium_discount_amount := price - rv
            status := interpretStatus ((price - rv) / rv * 100) } := by
  unfold calculate_premium_discount
  rw [if_neg (not_le.mpr h)]

/-- C1: `calculate_premium_discount(price, reference_value)` raises
`InvalidValuationError` iff `reference_value ≤ 0`; for positive
`reference_value` it returns `ratio = price / reference_value`,
`pct = (price − reference_value) / reference_value × 100`, classification
Premium iff `pct > 5`, Discount iff `pct < −5`, and FairValue at the
boundaries `pct = 5` and `pct = −5`. -/
theorem C1_premium_discount_contract (price rv : ℚ) :
    (calculate_premium_discount price rv = Except.error CalcError.invalidValuation ↔ rv ≤ 0) ∧
    (0 < rv →
      ∃ r, calculate_premium_discount price rv = Except.ok r ∧
        r.p_mnav_ratio = price / rv ∧
        r.premium_discount_pct = (price - rv) / rv * 100 ∧
        r.premium_discount_amount = price - rv ∧
        (r.status = Classification.premium ↔ r.premium_discount_pct > 5) ∧
        (r.status = Classification.discount ↔ r.premium_discount_pct < -5) ∧
        (r.premium_discount_pct = 5 → r.status = Classification.fair) ∧
        (r.premium_discount_pct = -5 → r.status = Classification.fair)) := by
  constructor
  · constructor
    · intro he
      by_contra hrv
      push_neg at hrv
      rw [calculate_premium_discount_ok price rv hrv] at he
      exact absurd he (by simp)
    · intro hrv
      unfold calculate_premium_discount
      rw [if_pos hrv]
  · intro hrv
    rw [calculate_premium_discount_ok price rv hrv]
    refine ⟨_, rfl, rfl, rfl, rfl, interpretStatus_eq_premium _, interpretStatus_eq_discount _,
      ?_, ?_⟩
    · intro h5
      have h5' : (price - rv) / rv * 100 = (5 : ℚ) := h5
      show interpretStatus ((price - rv) / rv * 100) = Classification.fair
      rw [h5']
      exact interpretStatus_boundary_hi
    · intro h5
      have h5' : (price - rv) / rv * 100 = (-5 : ℚ) := h5
      show interpretStatus ((price - rv) / rv * 100) = Classification.fair
      rw [h5']
      exact interpretStatus_boundary_lo

/-- Witness for C1 at the concrete inputs `(10, 0)` and `(10, 8)`. -/
theorem C1_premium_discount_contract_witness :
    (calculate_premium_discount 10 0 = Except.error CalcError.invalidValuation) ∧
    (∃ r, calculate_premium_discount 10 8 = Except.ok r ∧
        r.p_mnav_ratio = 10 / 8 ∧
        r.premium_discount_pct = (10 - 8) / 8 * 100 ∧
        r.premium_discount_amount = 10 - 8 ∧
        (r.status = Classification.premium ↔ r.premium_discount_pct > 5) ∧
        (r.status = Classification.discount ↔ r.premium_discount_pct < -5) ∧
        (r.premium_discount_pct = 5 → r.status = Classification.fair) ∧
        (r.premium_discount_pct = -5 → r.status = Classification.fair)) :=
  ⟨(C1_premium_discount_contract 10 0).1.mpr (by norm_num),
   (C1_premium_discount_contract 10 8).2 (by norm_num)⟩

/-- C7: with the same value supplied as fair value and book value,
`calculate_mnav_with_fair_value(fv, fv, rate)` yields a zero revaluation
gain and a zero deferred-tax adjustment, for every rate. -/
theorem C7_fair_value_noop (c : MNAVCalculator) (fv : Option ℚ) (rate : ℚ) (mi : Option ℚ) :
    (calculate_mnav_with_fair_value c fv fv rate mi).revaluation_gain = 0 ∧
    (calculate_mnav_with_fair_value c fv fv rate mi).deferred_tax_adjustment = 0 := by
  unfold calculate_mnav_with_fair_value
  by_cases h : truthy fv <;> simp [h]

end MNav

namespace MNav

theorem truthy_eq_true (o : Option ℚ) : truthy o = true ↔ ∃ x, o = some x ∧ x ≠ 0 := by
  cases o with
  | none => simp [truthy]
  | some x => simp [truthy]

/-- C9: construction fails with `InvalidInputError` iff the snapshot
sequence is empty or `shares_outstanding ≤ 0`, and succeeds for every
non-empty sequence with a positive share count. -/
theorem C9_construction_contract (bss : List Snapshot) (sh : ℚ) :
    (mkCalculator bss sh = Except.error CalcError.invalidInput ↔ (bss = [] ∨ sh ≤ 0)) ∧
    (bss ≠ [] → 0 < sh → ∃ c, mkCalculator bss sh = Except.ok c) := by
  constructor
  · constructor
    · intro he
      by_cases h1 : bss.isEmpty
      · left
        exact List.isEmpty_iff.mp h1
      · right
        by_contra h2
        push_neg at h2
        simp [mkCalculator, h1, not_le.mpr h2] at he
    · intro h
      rcases h with h | h
      · simp [mkCalculator, h]
      · by_cases h1 : bss.isEmpty
        · simp [mkCalculator, h1]
        · simp [mkCalculator, h1, h]
  · intro h1 h2
    have h3 : bss.isEmpty = false := by simp [List.isEmpty_iff, h1]
    refine ⟨{ latest_bs := bss.headD [], shares_outstanding := sh }, ?_⟩
    simp [mkCalculator, h3, not_le.mpr h2]

/-- Witness for C9: the empty sequence and a zero share count are rejected,
a one-row sheet with 10 shares is accepted. -/
theorem C9_construction_contract_witness :
    (mkCalculator [] 10 = Except.error CalcError.invalidInput) ∧
    (mkCalculator [sampleBS] 0 = Except.error CalcError.invalidInput) ∧
    (∃ c, mkCalculator [sampleBS] 10 = Except.ok c) :=
  ⟨(C9_construction_contract [] 10).1.mpr (Or.inl rfl),
   (C9_construction_contract [sampleBS] 0).1.mpr (Or.inr le_rfl),
   (C9_construction_contract [sampleBS] 10).2 (by simp) (by norm_num)⟩

/-- C10: a zero (or omitted) fair value or book value makes the pair count
as absent: no revaluation gain, unchanged assets, no deferred-tax
adjustment. -/
theorem C10_zero_pair_treated_absent (c : MNAVCalculator) (pfv pbv : Option ℚ) (rate : ℚ)
    (mi : Option ℚ)
    (h : pfv = none ∨ pfv = some 0 ∨ pbv = none ∨ pbv = some 0) :
    (calculate_mnav_with_fair_value c pfv pbv rate mi).revaluation_gain = 0 ∧
    (calculate_mnav_with_fair_value c pfv pbv rate mi).adjusted_assets
      = get_value_safe c.latest_bs ("total_assets") 0 ∧
    (calculate_mnav_with_fair_value c pfv pbv rate mi).deferred_tax_adjustment = 0 := by
  have hf : (truthy pfv && truthy pbv) = false := by
    rcases h with h | h | h | h <;> subst h <;> simp [truthy]
  simp [calculate_mnav_with_fair_value, hf]

/-- Witness for C10: an explicit zero fair value with a non-zero book value
still yields no adjustment. -/
theorem C10_zero_pair_treated_absent_witness :
    (calculate_mnav_with_fair_value sampleCalc (some 0) (some 100) (1/2) none).revaluation_gain
      = 0 ∧
    (calculate_mnav_with_fair_value sampleCalc (some 0) (some 100) (1/2) none).adjusted_assets
      = get_value_safe sampleCalc.latest_bs ("total_assets") 0 ∧
    (calculate_mnav_with_fair_value sampleCalc (some 0) (some 100) (1/2) none).deferred_tax_adjustment = 0 :=
  C10_zero_pair_treated_absent sampleCalc (some 0) (some 100) (1/2) none (Or.inr (Or.inl rfl))

/-- Counterexample to C2 as stated: with `fair_value = 0` and
`book_value = 100` both supplied (present), the code takes the no-adjustment
branch, so the revaluation gain is `0`, not `fair_value − book_value = −100`. -/
theorem C2_counterexample :
    (calculate_mnav_with_fair_value sampleCalc (some 0) (some 100) 0 none).revaluation_gain
      ≠ ((0 : ℚ) - 100) := by
  have h : (calculate_mnav_with_fair_value sampleCalc (some 0) (some 100) 0 none).revaluation_gain
      = 0 := by
    simp [calculate_mnav_with_fair_value, truthy]
  rw [h]
  norm_num

/-- C2 amended: when both fair value and book value are present *and
non-zero*, `revaluation_gain = fair_value − book_value` and
`adjusted_assets = total_assets + revaluation_gain`; when either is absent
*or zero*, the gain is `0` and assets are unchanged; in every case
`deferred_tax_adjustment = revaluation_gain × deferred_tax_rate`,
`mnav = adjusted_assets − total_liabilities − minority_interest −
deferred_tax_adjustment` and `mnav_per_share = mnav / shares_outstanding`. -/
theorem C2_mnav_fair_value_formulas (c : MNAVCalculator) (pfv pbv : Option ℚ) (rate : ℚ)
    (mi : Option ℚ) :
    ((∃ fv bv, pfv = some fv ∧ pbv = some bv ∧ fv ≠ 0 ∧ bv ≠ 0 ∧
        (calculate_mnav_with_fair_value c pfv pbv rate mi).revaluation_gain = fv - bv ∧
        (calculate_mnav_with_fair_value c pfv pbv rate mi).adjusted_assets
          = get_value_safe c.latest_bs ("total_assets") 0 + (fv - bv)) ∨
      ((truthy pfv && truthy pbv) = false ∧
        (calculate_mnav_with_fair_value c pfv pbv rate mi).revaluation_gain = 0 ∧
        (calculate_mnav_with_fair_value c pfv pbv rate mi).adjusted_assets
          = get_value_safe c.latest_bs ("total_assets") 0)) ∧
    (calculate_mnav_with_fair_value c pfv pbv rate mi).deferred_tax_adjustment
      = (calculate_mnav_with_fair_value c pfv pbv rate mi).revaluation_gain * rate ∧
    (calculate_mnav_with_fair_value c pfv pbv rate mi).mnav
      = (calculate_mnav_with_fair_value c pfv pbv rate mi).adjusted_assets
        - (calculate_mnav_with_fair_value c pfv pbv rate mi).total_liabilities
        - (calculate_mnav_with_fair_value c pfv pbv rate mi).minority_interest
        - (calculate_mnav_with_fair_value c pfv pbv rate mi).deferred_tax_adjustment ∧
    (calculate_mnav_with_fair_value c pfv pbv rate mi).mnav_per_share
      = (calculate_mnav_with_fair_value c pfv pbv rate mi).mnav / c.shares_outstanding := by
  refine ⟨?_, rfl, rfl, rfl⟩
  by_cases hf : (truthy pfv && truthy pbv) = true
  · left
    have hp : truthy pfv = true := (Bool.and_eq_true _ _).mp hf |>.1
    have hb : truthy pbv = true := (Bool.and_eq_true _ _).mp hf |>.2
    obtain ⟨fv, hfv, hfv0⟩ := (truthy_eq_true pfv).mp hp
    obtain ⟨bv, hbv, hbv0⟩ := (truthy_eq_true pbv).mp hb
    subst hfv
    subst hbv
    refine ⟨fv, bv, rfl, rfl, hfv0, hbv0, ?_, ?_⟩
    · simp [calculate_mnav_with_fair_value, hf]
    · simp [calculate_mnav_with_fair_value, hf]
  · right
    have hf' : (truthy pfv && truthy pbv) = false := by
      cases hb : (truthy pfv && truthy pbv) with
      | false => rfl
      | true => exact absurd hb hf
    exact ⟨hf', by simp [calculate_mnav_with_fair_value, hf'],
      by simp [calculate_mnav_with_fair_value, hf']⟩

end MNav

namespace MNav

theorem pyOr_chain_eq_firstNonZero (a b c fallback : ℚ) :
    pyOr a (pyOr b (pyOr c fallback)) = firstNonZero fallback [a, b, c] := by
  simp only [pyOr, firstNonZero]

/-- C5: for every successfully constructed engine, `calculate_basic_nav`
returns `nav = resolved total_assets − resolved total_liabilities`,
`nav_per_share = nav / shares_outstanding`, and an equity equal to the first
non-zero of the resolved `total_equity`, `shareholders_equity`,
`stockholders_equity` (in that order), with `total_assets −
total_liabilities` as the fallback when all three resolve to zero. -/
theorem C5_basic_nav_contract (bss : List Snapshot) (sh : ℚ) (c : MNAVCalculator)
    (_h : mkCalculator bss sh = Except.ok c) :
    (calculate_basic_nav c).nav
        = get_value_safe c.latest_bs ("total_assets") 0
          - get_value_safe c.latest_bs ("total_liabilities") 0 ∧
    (calculate_basic_nav c).nav_per_share = (calculate_basic_nav c).nav / c.shares_outstanding ∧
    (calculate_basic_nav c).book_value_equity
        = firstNonZero
            (get_value_safe c.latest_bs ("total_assets") 0
              - get_value_safe c.latest_bs ("total_liabilities") 0)
            [get_value_safe c.latest_bs ("total_equity") 0,
             get_value_safe c.latest_bs ("shareholders_equity") 0,
             get_value_safe c.latest_bs ("stockholders_equity") 0] := by
  refine ⟨rfl, rfl, ?_⟩
  exact pyOr_chain_eq_firstNonZero _ _ _ _

/-- Witness for C5 on the sample engine. -/
theorem C5_basic_nav_contract_witness :
    (calculate_basic_nav sampleCalc).nav
        = get_value_safe sampleCalc.latest_bs ("total_assets") 0
          - get_value_safe sampleCalc.latest_bs ("total_liabilities") 0 ∧
    (calculate_basic_nav sampleCalc).nav_per_share
      = (calculate_basic_nav sampleCalc).nav / sampleCalc.shares_outstanding ∧
    (calculate_basic_nav sampleCalc).book_value_equity
        = firstNonZero
            (get_value_safe sampleCalc.latest_bs ("total_assets") 0
              - get_value_safe sampleCalc.latest_bs ("total_liabilities") 0)
            [get_value_safe sampleCalc.latest_bs ("total_equity") 0,
             get_value_safe sampleCalc.latest_bs ("shareholders_equity") 0,
             get_value_safe sampleCalc.latest_bs ("stockholders_equity") 0] :=
  C5_basic_nav_contract [sampleBS] 10 sampleCalc (by rfl)

theorem getValueAux_of_all_none (bs : Snapshot) (dflt : ℚ) (ks : List String)
    (h : ∀ k ∈ ks, bs.lookup k = none) : getValueAux bs dflt ks = dflt := by
  induction ks with
  | nil => rfl
  | cons k ks ih =>
    unfold getValueAux
    rw [h k (by simp)]
    exact ih (fun k' hk' => h k' (by simp [hk']))

theorem getValueAux_first (bs : Snapshot) (dflt : ℚ) (ks : List String) (n : ℕ)
    (hn : n < ks.length)
    (hpre : ∀ m (hm : m < n), bs.lookup (ks.get ⟨m, lt_trans hm hn⟩) = none)
    (v : Option ℚ) (hv : bs.lookup (ks.get ⟨n, hn⟩) = some v) :
    getValueAux bs dflt ks = v.getD dflt := by
  induction ks generalizing n with
  | nil => exact absurd hn (by simp)
  | cons k ks ih =>
    cases n with
    | zero =>
      have hvk : bs.lookup k = some v := hv
      unfold getValueAux
      rw [hvk]
      cases v with
      | none => rfl
      | some x => rfl
    | succ m =>
      have h0 : bs.lookup k = none := hpre 0 (Nat.succ_pos m)
      unfold getValueAux
      rw [h0]
      exact ih m (Nat.lt_of_succ_lt_succ hn)
        (fun m' hm' => hpre (m' + 1) (Nat.succ_lt_succ hm')) hv

/-- C6: `_get_value_safe` tries exactly the variants identity, lower, upper,
separator-stripped, title-cased-with-spaces, in that order; the first
variant present in the snapshot decides the result (its value when
non-missing, the default when that value is null), and the default is
returned when no variant is present.  The function is total: it never
fails on a missing field. -/
theorem C6_resolver_contract (key : String) (dflt : ℚ) (bs : Snapshot) :
    key_variations key
      = [key, pyLower key, pyUpper key, stripUnderscores key,
         pyTitle (underscoresToSpaces key)] ∧
    ((∀ k ∈ key_variations key, bs.lookup k = none) → get_value_safe bs key dflt = dflt) ∧
    (∀ n (hn : n < (key_variations key).length),
      (∀ m (hm : m < n), bs.lookup ((key_variations key).get ⟨m, lt_trans hm hn⟩) = none) →
      ∀ v, bs.lookup ((key_variations key).get ⟨n, hn⟩) = some v →
        get_value_safe bs key dflt = v.getD dflt) := by
  refine ⟨rfl, ?_, ?_⟩
  · intro h
    exact getValueAux_of_all_none bs dflt _ h
  · intro n hn hpre v hv
    exact getValueAux_first bs dflt _ n hn hpre v hv

/-- Witness for C6: on a snapshot keyed `"Total Assets"` (the fifth,
title-cased variant of `total_assets`) the value is found; on a snapshot
with no matching variant the default comes back; a null under the first
matching variant also yields the default. -/
theorem C6_resolver_contract_witness :
    get_value_safe [("x", some 3)] ("total_assets") 7 = 7 ∧
    get_value_safe [("Total Assets", some 42)] ("total_assets") 7 = 42 ∧
    get_value_safe [("total_assets", none), ("TOTAL_ASSETS", some 9)] ("total_assets") 7 = 7 :=
  ⟨(C6_resolver_contract ("total_assets") 7 [("x", some 3)]).2.1 (by decide),
   (C6_resolver_contract ("total_assets") 7 [("Total Assets", some 42)]).2.2 4 (by decide)
     (by decide) (some 42) (by decide),
   (C6_resolver_contract ("total_assets") 7 [("total_assets", none), ("TOTAL_ASSETS", some 9)]).2.2
     0 (by decide) (fun m hm => absurd hm (by simp)) none (by decide)⟩

end MNav

namespace MNav

theorem rowStatus_eq_interpretStatus (pct : ℚ) : rowStatus pct = interpretStatus pct := rfl

/-- C4: for a positive reference value, the historical projection has one
row per input price, in input order, and each row carries
`ratio = price / reference`, the percentage and delta formulas, and the
same classification `calculate_premium_discount` returns for that price. -/
theorem C4_historical_series (prices : List ℚ) (rv : ℚ) (h : 0 < rv) :
    (calculate_historical_mnav prices rv).length = prices.length ∧
    ∀ i (hi : i < prices.length) (hi' : i < (calculate_historical_mnav prices rv).length),
      ∃ pd, calculate_premium_discount (prices.get ⟨i, hi⟩) rv = Except.ok pd ∧
        (calculate_historical_mnav prices rv).get ⟨i, hi'⟩
          = { price := prices.get ⟨i, hi⟩
              mnav_per_share := rv
              p_mnav_ratio := prices.get ⟨i, hi⟩ / rv
              premium_discount_pct := (prices.get ⟨i, hi⟩ - rv) / rv * 100
              premium_discount_amount := prices.get ⟨i, hi⟩ - rv
              valuation_status := pd.status } := by
  constructor
  · simp [calculate_historical_mnav]
  · intro i hi hi'
    refine ⟨_, calculate_premium_discount_ok _ rv h, ?_⟩
    simp only [calculate_historical_mnav, List.get_eq_getElem, List.getElem_map,
      rowStatus_eq_interpretStatus]

/-- Witness for C4 on the one-point series `[42]` with reference `40`. -/
theorem C4_historical_series_witness :
    (calculate_historical_mnav [42] 40).length = [(42 : ℚ)].length ∧
    ∀ i (hi : i < [(42 : ℚ)].length) (hi' : i < (calculate_historical_mnav [42] 40).length),
      ∃ pd, calculate_premium_discount ([(42 : ℚ)].get ⟨i, hi⟩) 40 = Except.ok pd ∧
        (calculate_historical_mnav [42] 40).get ⟨i, hi'⟩
          = { price := [(42 : ℚ)].get ⟨i, hi⟩
              mnav_per_share := 40
              p_mnav_ratio := [(42 : ℚ)].get ⟨i, hi⟩ / 40
              premium_discount_pct := ([(42 : ℚ)].get ⟨i, hi⟩ - 40) / 40 * 100
              premium_discount_amount := [(42 : ℚ)].get ⟨i, hi⟩ - 40
              valuation_status := pd.status } :=
  C4_historical_series [42] 40 (by norm_num)

/-- Counterexample to C3 as stated: at `reference_value = −1` the
single-point logic raises, but `calculate_historical_mnav` silently
returns a fully computed row (ratio `−10`, pct `−1100`) instead of
failing. -/
theorem C3_counterexample :
    calculate_premium_discount 10 (-1) = Except.error CalcError.invalidValuation ∧
    calculate_historical_mnav [10] (-1)
      = [{ price := 10, mnav_per_share := -1, p_mnav_ratio := -10,
           premium_discount_pct := -1100, premium_discount_amount := 11,
           valuation_status := Classification.discount }] := by
  constructor
  · unfold calculate_premium_discount
    rw [if_pos (by norm_num)]
  · unfold calculate_historical_mnav
    simp only [List.map_cons, List.map_nil]
    norm_num [rowStatus, HistRow.mk.injEq]

/-- C3 amended: `calculate_historical_mnav` performs no validation of the
reference value: for every `reference_value ≤ 0` it does not fail but
returns one row per input point, computed with the same formulas applied
to the non-positive reference value. -/
theorem C3_no_validation_in_series (prices : List ℚ) (rv : ℚ) (_h : rv ≤ 0) :
    (calculate_historical_mnav prices rv).length = prices.length ∧
    ∀ i (hi : i < prices.length) (hi' : i < (calculate_historical_mnav prices rv).length),
      (calculate_historical_mnav prices rv).get ⟨i, hi'⟩
        = { price := prices.get ⟨i, hi⟩
            mnav_per_share := rv
            p_mnav_ratio := prices.get ⟨i, hi⟩ / rv
            premium_discount_pct := (prices.get ⟨i, hi⟩ - rv) / rv * 100
            premium_discount_amount := prices.get ⟨i, hi⟩ - rv
            valuation_status := rowStatus ((prices.get ⟨i, hi⟩ - rv) / rv * 100) } := by
  constructor
  · simp [calculate_historical_mnav]
  · intro i hi hi'
    simp only [calculate_historical_mnav, List.get_eq_getElem, List.getElem_map]

/-- Witness for the amended C3 at the series `[10]` and reference `−1`. -/
theorem C3_no_validation_in_series_witness :
    (calculate_historical_mnav [10] (-1)).length = [(10 : ℚ)].length ∧
    ∀ i (hi : i < [(10 : ℚ)].length) (hi' : i < (calculate_historical_mnav [10] (-1)).length),
      (calculate_historical_mnav [10] (-1)).get ⟨i, hi'⟩
        = { price := [(10 : ℚ)].get ⟨i, hi⟩
            mnav_per_share := -1
            p_mnav_ratio := [(10 : ℚ)].get ⟨i, hi⟩ / (-1)
            premium_discount_pct := ([(10 : ℚ)].get ⟨i, hi⟩ - (-1)) / (-1) * 100
            premium_discount_amount := [(10 : ℚ)].get ⟨i, hi⟩ - (-1)
            valuation_status := rowStatus (([(10 : ℚ)].get ⟨i, hi⟩ - (-1)) / (-1) * 100) } :=
  C3_no_validation_in_series [10] (-1) (by norm_num)

theorem compareAux_ok (price : ℚ) (scenarios : List (String × ℚ))
    (h : ∀ nv ∈ scenarios, 0 < nv.2) :
    ∃ rows, compareAux price scenarios = Except.ok rows ∧
      rows.length = scenarios.length ∧
      ∀ i (hi : i < scenarios.length) (hi' : i < rows.length),
        ∃ pd, calculate_premium_discount price (scenarios.get ⟨i, hi⟩).2 = Except.ok pd ∧
          rows.get ⟨i, hi'⟩ = mkScenarioRow price (scenarios.get ⟨i, hi⟩) pd := by
  induction scenarios with
  | nil =>
    refine ⟨[], rfl, rfl, ?_⟩
    intro i hi
    exact absurd hi (by simp)
  | cons nv rest ih =>
    have hpos : 0 < nv.2 := h nv (by simp)
    obtain ⟨rows, hrows, hlen, hidx⟩ := ih (fun x hx => h x (by simp [hx]))
    refine ⟨mkScenarioRow price nv
        { current_price := price
          mnav_per_share := nv.2
          p_mnav_ratio := price / nv.2
          premium_discount_pct := (price - nv.2) / nv.2 * 100
          premium_discount_amount := price - nv.2
          status := interpretStatus ((price - nv.2) / nv.2 * 100) } :: rows,
      ?_, by simp [hlen], ?_⟩
    · unfold compareAux
      rw [calculate_premium_discount_ok price nv.2 hpos, hrows]
    · intro i hi hi'
      cases i with
      | zero =>
        exact ⟨_, calculate_premium_discount_ok price nv.2 hpos, rfl⟩
      | succ m =>
        exact hidx m (Nat.lt_of_succ_lt_succ hi) (Nat.lt_of_succ_lt_succ hi')

theorem compareAux_error (price : ℚ) (scenarios : List (String × ℚ))
    (h : ∃ nv ∈ scenarios, nv.2 ≤ 0) :
    ∃ e, compareAux price scenarios = Except.error e := by
  induction scenarios with
  | nil => simp at h
  | cons nv rest ih =>
    by_cases hpos : 0 < nv.2
    · obtain ⟨x, hx, hxle⟩ := h
      rcases List.mem_cons.mp hx with hhd | htl
      · rw [hhd] at hxle
        linarith
      · obtain ⟨e, he⟩ := ih ⟨x, htl, hxle⟩
        refine ⟨e, ?_⟩
        unfold compareAux
        rw [calculate_premium_discount_ok price nv.2 hpos, he]
    · refine ⟨CalcError.invalidValuation, ?_⟩
      unfold compareAux
      have herr : calculate_premium_discount price nv.2
          = Except.error CalcError.invalidValuation := by
        unfold calculate_premium_discount
        rw [if_pos (not_lt.mp hpos)]
      rw [herr]

/-- C8: `compare_multiple_valuations` succeeds exactly when every scenario
value is positive, and then returns one row per scenario in input order,
each row assembled from an independent `calculate_premium_discount` call on
that scenario's value alone. -/
theorem C8_compare_scenarios (price : ℚ) (scenarios : List (String × ℚ)) :
    ((∀ nv ∈ scenarios, 0 < nv.2) ↔
      ∃ rows, compare_multiple_valuations price scenarios = Except.ok rows) ∧
    ∀ rows, compare_multiple_valuations price scenarios = Except.ok rows →
      rows.length = scenarios.length ∧
      ∀ i (hi : i < scenarios.length) (hi' : i < rows.length),
        ∃ pd, calculate_premium_discount price (scenarios.get ⟨i, hi⟩).2 = Except.ok pd ∧
          rows.get ⟨i, hi'⟩ = mkScenarioRow price (scenarios.get ⟨i, hi⟩) pd := by
  constructor
  · constructor
    · intro h
      obtain ⟨rows, hrows, _⟩ := compareAux_ok price scenarios h
      exact ⟨rows, hrows⟩
    · rintro ⟨rows, hrows⟩
      by_contra hneg
      push_neg at hneg
      obtain ⟨x, hx, hxle⟩ := hneg
      obtain ⟨e, he⟩ := compareAux_error price scenarios ⟨x, hx, hxle⟩
      unfold compare_multiple_valuations at hrows
      rw [hrows] at he
      exact absurd he (by simp)
  · intro rows hrows
    unfold compare_multiple_valuations at hrows
    have hall : ∀ nv ∈ scenarios, 0 < nv.2 := by
      by_contra hneg
      push_neg at hneg
      obtain ⟨x, hx, hxle⟩ := hneg
      obtain ⟨e, he⟩ := compareAux_error price scenarios ⟨x, hx, hxle⟩
      rw [hrows] at he
      exact absurd he (by simp)
    obtain ⟨rows', hrows', hlen, hidx⟩ := compareAux_ok price scenarios hall
    have heq : rows = rows' := by
      have h2 : (Except.ok rows : Except CalcError (List ScenarioRow)) = Except.ok rows' := by
        rw [← hrows]
        exact hrows'
      exact Except.ok.inj h2
    subst heq
    exact ⟨hlen, hidx⟩

/-- Witness for C8: two positive scenarios produce exactly two rows. -/
theorem C8_compare_scenarios_witness :
    ∃ rows, compare_multiple_valuations 10 [("Conservative", 8), ("Base", 12)] = Except.ok rows ∧
      rows.length = 2 := by
  obtain ⟨rows, hrows⟩ :=
    (C8_compare_scenarios 10 [("Conservative", 8), ("Base", 12)]).1.mp (by decide)
  exact ⟨rows, hrows,
    ((C8_compare_scenarios 10 [("Conservative", 8), ("Base", 12)]).2 rows hrows).1⟩

end MNav
